import Mathlib

/-!
Verification of the tagore chromosome-ideogram drawer
(`src/tagore/main.py`) against its natural-language specification.

The `draw` function is embedded shallowly: Python floats are modelled as
exact rationals (ℚ), Python arbitrary-precision ints as ℤ, the sequence of
`svg_fh.write` payloads as a list of document items, and the global
accumulator string `polygons` as a list of triangle shapes.  Fatal events
(`sys.exit` on a bad column count, uncaught `ValueError` from `int()` /
`float()` conversion, uncaught `KeyError` from a failed table lookup) are
modelled with `Except`.
-/

namespace Tagore

/-- Per-chromosome geometry record, one entry of the `COORDINATES` table:
center x, origin y, drawn height, drawn width. -/
structure Geom where
  cx : ℚ
  cy : ℚ
  ht : ℚ
  width : ℚ
deriving DecidableEq, Repr

/-- The `COORDINATES` dictionary of `main.py` (lines 22-47). -/
def COORDINATES : String → Option Geom
  | "1" => some ⟨128.6, 1.5, 1654.5, 118.6⟩
  | "2" => some ⟨301.4, 43.6, 1612.4, 118.6⟩
  | "3" => some ⟨477.6, 341.4, 1314.7, 118.6⟩
  | "4" => some ⟨655.6, 517.9, 1138.1, 118.6⟩
  | "5" => some ⟨835.4, 461, 1195.1, 118.6⟩
  | "6" => some ⟨1012.4, 524.2, 1131.8, 118.6⟩
  | "7" => some ⟨1198.2, 608.5, 1047.5, 118.6⟩
  | "8" => some ⟨1372.9, 692.8, 963.2, 118.6⟩
  | "9" => some ⟨1554.5, 724.4, 931.6, 118.6⟩
  | "10" => some ⟨1733.8, 766.6, 889.4, 118.6⟩
  | "11" => some ⟨1911.5, 766.6, 889.4, 118.6⟩
  | "12" => some ⟨2095.6, 769.7, 886.3, 118.6⟩
  | "13" => some ⟨129.3, 2068.8, 766.1, 118.6⟩
  | "14" => some ⟨301.6, 2121.5, 713.4, 118.6⟩
  | "15" => some ⟨477.5, 2153.1, 681.8, 118.6⟩
  | "16" => some ⟨656.7, 2232.2, 602.8, 118.6⟩
  | "17" => some ⟨841.2, 2290.7, 544.3, 118.6⟩
  | "18" => some ⟨1015.7, 2313.9, 521.1, 118.6⟩
  | "19" => some ⟨1199.5, 2437.2, 397.8, 118.6⟩
  | "20" => some ⟨1374.4, 2416.1, 418.9, 118.6⟩
  | "21" => some ⟨1553, 2510.9, 324.1, 118.6⟩
  | "22" => some ⟨1736.9, 2489.8, 345.1, 118.6⟩
  | "X" => some ⟨1915.7, 1799.21, 1035.4, 118.6⟩
  | "Y" => some ⟨2120.9, 2451.6, 382.7, 118.6⟩
  | _ => none

/-- The `hg37` entries of the `CHROM_SIZES` dictionary (lines 50-75). -/
def hg37Sizes : String → Option ℤ
  | "1" => some 249250621
  | "2" => some 243199373
  | "3" => some 198022430
  | "4" => some 191154276
  | "5" => some 180915260
  | "6" => some 171115067
  | "7" => some 159138663
  | "8" => some 146364022
  | "9" => some 141213431
  | "10" => some 135534747
  | "11" => some 135006516
  | "12" => some 133851895
  | "13" => some 115169878
  | "14" => some 107349540
  | "15" => some 102531392
  | "16" => some 90354753
  | "17" => some 81195210
  | "18" => some 78077248
  | "19" => some 59128983
  | "20" => some 63025520
  | "21" => some 48129895
  | "22" => some 51304566
  | "X" => some 155270560
  | "Y" => some 59373566
  | _ => none

/-- The `hg38` entries of the `CHROM_SIZES` dictionary (lines 76-101). -/
def hg38Sizes : String → Option ℤ
  | "1" => some 248956422
  | "2" => some 242193529
  | "3" => some 198295559
  | "4" => some 190214555
  | "5" => some 181538259
  | "6" => some 170805979
  | "7" => some 159345973
  | "8" => some 145138636
  | "9" => some 138394717
  | "10" => some 133797422
  | "11" => some 135086622
  | "12" => some 133275309
  | "13" => some 114364328
  | "14" => some 107043718
  | "15" => some 101991189
  | "16" => some 90338345
  | "17" => some 83257441
  | "18" => some 80373285
  | "19" => some 58617616
  | "20" => some 64444167
  | "21" => some 46709983
  | "22" => some 50818468
  | "X" => some 156040895
  | "Y" => some 57227415
  | _ => none

/-- Lookup `CHROM_SIZES[build][chrm]`: `none` models the `KeyError` raised on an
unknown build or chromosome name. -/
def CHROM_SIZES : String → String → Option ℤ
  | "hg37", c => hg37Sizes c
  | "hg38", c => hg38Sizes c
  | _, _ => none

/-! ### Python string primitives used by the `draw` loop -/

/-- The characters stripped by Python's `str.rstrip()` with no argument. -/
def isPySpace (c : Char) : Bool :=
  c = ' ' || c = '\t' || c = '\n' || c = '\x0d' || c = '\x0b' || c = '\x0c'

/-- Python `entry.rstrip()` (line 157): remove trailing whitespace. -/
def pyRstrip (s : String) : String :=
  ⟨(s.data.reverse.dropWhile isPySpace).reverse⟩

/-- Strip whitespace from both ends, as Python's `int()`/`float()` do
before parsing a literal. -/
def stripWs (l : List Char) : List Char :=
  ((l.dropWhile isPySpace).reverse.dropWhile isPySpace).reverse

/-- Accumulator for `pySplitTab`: split on every tab, keeping empty fields. -/
def splitTabAux : List Char → List Char → List (List Char)
  | [], acc => [acc.reverse]
  | c :: rest, acc =>
    if c = '\t' then acc.reverse :: splitTabAux rest []
    else splitTabAux rest (c :: acc)

/-- Python `entry.split("\t")` (line 157): Python `str.split` with an explicit
separator keeps empty fields and returns `[""]` on the empty string. -/
def pySplitTab (s : String) : List String :=
  (splitTabAux s.data []).map (fun l => ⟨l⟩)

/-- Python `entry.startswith("#")` (line 155). -/
def startsWithHash (s : String) : Bool :=
  match s.data with
  | [] => false
  | c :: _ => c = '#'

/-- Python `chrm.replace("chr", "")` (line 162) on the character list: Python's
`str.replace` removes every left-to-right non-overlapping occurrence of the
pattern, not only a leading prefix. -/
def removeChr : List Char → List Char
  | 'c' :: 'h' :: 'r' :: rest => removeChr rest
  | c :: rest => c :: removeChr rest
  | [] => []

/-- Python `chrm.replace("chr", "")` (line 162). -/
def pyReplaceChr (s : String) : String :=
  ⟨removeChr s.data⟩

/-- Whether the substring "chr" occurs anywhere in the list. -/
def hasChr : List Char → Bool
  | 'c' :: 'h' :: 'r' :: _ => true
  | _ :: rest => hasChr rest
  | [] => false

/-- Modelled from the spec (§4.2): "strip any leading chromosome-name
prefix token (e.g. \"chr\") before lookup" — removes one leading "chr"
prefix and nothing else.  Used only to compare the spec's description of
the normalizer with the code's `replace`-based normalizer. -/
def stripLeadingChr (s : String) : String :=
  if ['c', 'h', 'r'].isPrefixOf s.data then ⟨s.data.drop 3⟩ else s

/-- Digit run to a natural number. -/
def digitsToNat (l : List Char) : Nat :=
  l.foldl (fun a c => a * 10 + (c.toNat - 48)) 0

/-- Python `int(s)` on a decimal literal: optional surrounding whitespace,
optional sign, then a nonempty digit run; `none` models the `ValueError`
raised on any other string. -/
def pyInt (s : String) : Option ℤ :=
  match stripWs s.data with
  | '-' :: ds =>
    if ds ≠ [] ∧ ds.all Char.isDigit then some (-(digitsToNat ds : ℤ)) else none
  | '+' :: ds =>
    if ds ≠ [] ∧ ds.all Char.isDigit then some (digitsToNat ds : ℤ) else none
  | ds =>
    if ds ≠ [] ∧ ds.all Char.isDigit then some (digitsToNat ds : ℤ) else none

/-- Unsigned decimal body of a float literal: `digits`, `digits.digits`,
`digits.` or `.digits`. -/
def pyFloatBody (l : List Char) : Option ℚ :=
  let intPart := l.takeWhile Char.isDigit
  let rest := l.dropWhile Char.isDigit
  match rest with
  | [] => if intPart ≠ [] then some (digitsToNat intPart : ℚ) else none
  | '.' :: frac =>
    if frac.all Char.isDigit ∧ (intPart ≠ [] ∨ frac ≠ []) then
      some ((digitsToNat intPart : ℚ) + (digitsToNat frac : ℚ) / 10 ^ frac.length)
    else none
  | _ => none

/-- Python `float(s)` restricted to the plain decimal forms the input format
uses (optional whitespace and sign, digits with an optional fractional
part); exponent, infinity and nan spellings are not modelled.  `none`
models the `ValueError` raised on a malformed literal. -/
def pyFloat (s : String) : Option ℚ :=
  match stripWs s.data with
  | '-' :: r => (pyFloatBody r).map (fun q => -q)
  | '+' :: r => pyFloatBody r
  | r => pyFloatBody r

/-- Pattern `re.match("^#.\x7b6\x7d", col)` (line 174): a leading `#` followed by at
least six characters, none of the six a newline (`.` does not match a
newline). -/
def colOk (col : String) : Bool :=
  match col.data with
  | '#' :: rest => rest.length ≥ 6 && (rest.take 6).all (fun c => c ≠ '\n')
  | _ => false

/-! ### Shapes and the document model -/

/-- One drawing primitive, as written into the SVG by the four feature
branches of `draw` (lines 188-267).  The triangle carries its three polygon
points in the order of the `points` attribute. -/
inductive ShapeDescription where
  | rect (x y width height : ℚ) (col : String)
  | circle (cx cy r : ℚ) (col : String)
  | triangle (p1x p1y p2x p2y p3x p3y : ℚ) (col : String)
  | line (x1 y1 x2 y2 : ℚ) (col : String)
deriving DecidableEq, Repr

/-- One payload of a `svg_fh.write` call: the header string, a shape
fragment, the footer string, or the closing `</svg>` tag. -/
inductive DocItem where
  | header (s : String)
  | shape (sh : ShapeDescription)
  | footer (s : String)
  | closing
deriving DecidableEq, Repr

/-- Whether a shape is a triangle (routed to the deferred `polygons`
accumulator by the code). -/
def ShapeDescription.isTri : ShapeDescription → Bool
  | .triangle .. => true
  | _ => false

/-- A document item that is a base shape: a rectangle, circle or line
fragment written directly to the file inside the loop. -/
def DocItem.isBaseItem : DocItem → Bool
  | .shape s => !s.isTri
  | _ => false

/-- A document item that is a triangle fragment. -/
def DocItem.isTriItem : DocItem → Bool
  | .shape s => s.isTri
  | _ => false

/-! ### Shape builders (the four feature branches) -/

/-- Feature 0, lines 188-206. -/
def buildRect (g : Geom) (L : ℚ) (start stop : ℤ) (size : ℚ) (chrcopy : ℤ)
    (col : String) : ShapeDescription :=
  let feat_start : ℚ := start * g.ht / L
  let feat_end : ℚ := stop * g.ht / L
  let width := g.width * size / 2
  let x_pos := if chrcopy = 1 then g.cx - width else g.cx
  let y_pos := g.cy + feat_start
  let height := feat_end - feat_start
  .rect x_pos y_pos width height col

/-- Feature 1, lines 207-224. -/
def buildCircle (g : Geom) (L : ℚ) (start stop : ℤ) (size : ℚ) (chrcopy : ℤ)
    (col : String) : ShapeDescription :=
  let feat_start : ℚ := start * g.ht / L
  let feat_end : ℚ := stop * g.ht / L
  let radius := g.width * size / 4
  let x_pos := if chrcopy = 1 then g.cx - g.width / 4 else g.cx + g.width / 4
  let y_pos := g.cy + (feat_start + feat_end) / 2
  .circle x_pos y_pos radius col

/-- Feature 2, lines 225-244. -/
def buildTriangle (g : Geom) (L : ℚ) (start stop : ℤ) (size : ℚ) (chrcopy : ℤ)
    (col : String) : ShapeDescription :=
  let feat_start : ℚ := start * g.ht / L
  let feat_end : ℚ := stop * g.ht / L
  let x_pos := if chrcopy = 1 then g.cx - g.width / 2 else g.cx + g.width / 2
  let sx_pos := if chrcopy = 1 then (38.2 : ℚ) * size else -(38.2 : ℚ) * size
  let y_pos := g.cy + (feat_start + feat_end) / 2
  let sy_pos := (21.5 : ℚ) * size
  .triangle (x_pos - sx_pos) (y_pos - sy_pos) x_pos y_pos (x_pos - sx_pos)
    (y_pos + sy_pos) col

/-- Feature 3, lines 245-267. -/
def buildLine (g : Geom) (L : ℚ) (start stop : ℤ) (chrcopy : ℤ)
    (col : String) : ShapeDescription :=
  let y_pos1 : ℚ := start * g.ht / L
  let y_pos2 : ℚ := stop * g.ht / L
  let y_pos := (y_pos1 + y_pos2) / 2 + g.cy
  let x_pos1 := if chrcopy = 1 then g.cx - g.width / 2 else g.cx
  let x_pos2 := if chrcopy = 1 then g.cx else g.cx + g.width / 2
  .line x_pos1 y_pos x_pos2 y_pos col

/-! ### Diagnostics (the `print` calls of the loop) -/

/-- Line 159. -/
def columnsMsg (ln : Nat) : String :=
  "Line number " ++ toString ln ++ " does not have 7 columns"

/-- Lines 169-172 (continuation whitespace of the source literal
normalized to a single space). -/
def sizeMsg (size : ℚ) (ln : Nat) : String :=
  "Feature size, " ++ toString size ++ ",on line " ++ toString ln ++
    " unclear. Please bound the size between 0 (0%) to 1 (100%). Defaulting to 1."

/-- Lines 175-178. -/
def colMsg (col : String) (ln : Nat) : String :=
  "Feature color, " ++ col ++ ", on line " ++ toString ln ++
    " unclear. Please define the color in hex starting with #. Defaulting to #000000."

/-- Lines 181-184. -/
def copyMsg (chrcopy : ℤ) (ln : Nat) : String :=
  "Feature chromosome copy, " ++ toString chrcopy ++ ", on line " ++
    toString ln ++ " unclear. Skipping..."

/-- Lines 269-271. -/
def featMsg (feature : ℤ) : String :=
  "Feature type, " ++ toString feature ++
    ", unclear. Please use either 0, 1, 2 or 3. Skipping..."

/-! ### The draw loop -/

/-- A fatal event inside the loop: `sys.exit` after the bad-column
diagnostic (line 160), an uncaught `ValueError` from a numeric conversion
(lines 163-167), or an uncaught `KeyError` from a table lookup. -/
inductive Fatal where
  | columns (msg : String)
  | valueError (field : String)
  | keyError (chrm : String)
deriving DecidableEq, Repr

/-- Mutable state of the loop: the sequence of base writes made so far
(after the header), the deferred `polygons` accumulator, the 1-based
`line_num` counter, and the diagnostics printed so far. -/
structure DrawState where
  written : List DocItem
  polygons : List ShapeDescription
  lineNum : Nat
  diags : List String
deriving DecidableEq, Repr

/-- State at loop entry (line 153: `line_num = 1`). -/
def initState : DrawState := ⟨[], [], 1, []⟩

instance {ε α : Type} [DecidableEq ε] [DecidableEq α] :
    DecidableEq (Except ε α) := fun a b =>
  match a, b with
  | .ok x, .ok y =>
    if h : x = y then .isTrue (by rw [h])
    else .isFalse (fun hc => h (Except.ok.inj hc))
  | .error x, .error y =>
    if h : x = y then .isTrue (by rw [h])
    else .isFalse (fun hc => h (Except.error.inj hc))
  | .ok _, .error _ => .isFalse (fun hc => Except.noConfusion hc)
  | .error _, .ok _ => .isFalse (fun hc => Except.noConfusion hc)

/-- One iteration of the `for entry in input_fh` loop (lines 154-272). -/
def processLine (build : String) (st : DrawState) (entry : String) :
    Except Fatal DrawState :=
  if startsWithHash entry then .ok st else
  let fields := pySplitTab (pyRstrip entry)
  if fields.length = 7 then
    let chrm := pyReplaceChr (fields.getD 0 "")
    match pyInt (fields.getD 1 "") with
    | none => .error (.valueError (fields.getD 1 ""))
    | some start =>
    match pyInt (fields.getD 2 "") with
    | none => .error (.valueError (fields.getD 2 ""))
    | some stop =>
    match pyFloat (fields.getD 4 "") with
    | none => .error (.valueError (fields.getD 4 ""))
    | some size0 =>
    match pyInt (fields.getD 3 "") with
    | none => .error (.valueError (fields.getD 3 ""))
    | some feature =>
    match pyInt (fields.getD 6 "") with
    | none => .error (.valueError (fields.getD 6 ""))
    | some chrcopy =>
    let col0 := fields.getD 5 ""
    let size := if 0 > size0 ∧ size0 > 1 then (1 : ℚ) else size0
    let d1 := if 0 > size0 ∧ size0 > 1 then st.diags ++ [sizeMsg size0 st.lineNum]
      else st.diags
    let col := if colOk col0 then col0 else "#000000"
    let d2 := if colOk col0 then d1 else d1 ++ [colMsg col0 st.lineNum]
    if chrcopy ≠ 1 ∧ chrcopy ≠ 2 then
      .ok ⟨st.written, st.polygons, st.lineNum + 1, d2 ++ [copyMsg chrcopy st.lineNum]⟩
    else
      if feature = 0 ∨ feature = 1 ∨ feature = 2 ∨ feature = 3 then
        match COORDINATES chrm, CHROM_SIZES build chrm with
        | some g, some L =>
          if feature = 0 then
            .ok ⟨st.written ++ [.shape (buildRect g (L : ℚ) start stop size chrcopy col)],
              st.polygons, st.lineNum + 1, d2⟩
          else if feature = 1 then
            .ok ⟨st.written ++ [.shape (buildCircle g (L : ℚ) start stop size chrcopy col)],
              st.polygons, st.lineNum + 1, d2⟩
          else if feature = 2 then
            .ok ⟨st.written,
              st.polygons ++ [buildTriangle g (L : ℚ) start stop size chrcopy col],
              st.lineNum + 1, d2⟩
          else
            .ok ⟨st.written ++ [.shape (buildLine g (L : ℚ) start stop chrcopy col)],
              st.polygons, st.lineNum + 1, d2⟩
        | _, _ => .error (.keyError chrm)
      else
        .ok ⟨st.written, st.polygons, st.lineNum + 1, d2 ++ [featMsg feature]⟩
  else
    .error (.columns (columnsMsg st.lineNum))

/-- The whole loop over the input lines. -/
def processLines (build : String) (st : DrawState) : List String → Except Fatal DrawState
  | [] => .ok st
  | e :: rest =>
    match processLine build st e with
    | .error f => .error f
    | .ok st' => processLines build st' rest

/-- The full `draw` pass: header write (line 149), the loop, then the
finalization writes `svg_footer`, `polygons`, `"</svg>"` (lines 273-275).
The result is the sequence of write payloads of a completed run, or the
fatal event that aborted it (in which case no document is finalized). -/
def drawDoc (build hdr ftr : String) (lines : List String) :
    Except Fatal (List DocItem) :=
  match processLines build initState lines with
  | .error f => .error f
  | .ok st =>
    .ok (DocItem.header hdr ::
      (st.written ++ (DocItem.footer ftr :: (st.polygons.map DocItem.shape ++ [DocItem.closing]))))

/-! ### Projections on shapes, and the spec's transform -/

/-- The x attribute of a rectangle fragment. -/
def ShapeDescription.rectX : ShapeDescription → ℚ
  | .rect x _ _ _ _ => x
  | _ => 0

/-- The y attribute of a rectangle fragment. -/
def ShapeDescription.rectY : ShapeDescription → ℚ
  | .rect _ y _ _ _ => y
  | _ => 0

/-- The width attribute of a rectangle fragment. -/
def ShapeDescription.rectW : ShapeDescription → ℚ
  | .rect _ _ w _ _ => w
  | _ => 0

/-- The height attribute of a rectangle fragment. -/
def ShapeDescription.rectH : ShapeDescription → ℚ
  | .rect _ _ _ h _ => h
  | _ => 0

/-- The center-y attribute of a circle fragment. -/
def ShapeDescription.circY : ShapeDescription → ℚ
  | .circle _ cy _ _ => cy
  | _ => 0

/-- The apex (second polygon point) y coordinate of a triangle fragment. -/
def ShapeDescription.triY : ShapeDescription → ℚ
  | .triangle _ _ _ y _ _ _ => y
  | _ => 0

/-- The x1 attribute of a line fragment. -/
def ShapeDescription.lineX1 : ShapeDescription → ℚ
  | .line x1 _ _ _ _ => x1
  | _ => 0

/-- The x2 attribute of a line fragment. -/
def ShapeDescription.lineX2 : ShapeDescription → ℚ
  | .line _ _ x2 _ _ => x2
  | _ => 0

/-- The y1 attribute of a line fragment. -/
def ShapeDescription.lineY1 : ShapeDescription → ℚ
  | .line _ y1 _ _ _ => y1
  | _ => 0

/-- The y2 attribute of a line fragment. -/
def ShapeDescription.lineY2 : ShapeDescription → ℚ
  | .line _ _ _ y2 _ => y2
  | _ => 0

/-- The spec's linear vertical transform (§4.1), stated from the spec's
words for comparison with the code's feature branches:
y = origin_y(c) + position * extent_height(c) / total_length(b, c). -/
def yMap (g : Geom) (L : ℚ) (pos : ℤ) : ℚ :=
  g.cy + pos * g.ht / L

/-- Geometry of chromosome "1", used as a concrete instance. -/
def chr1 : Geom := ⟨128.6, 1.5, 1654.5, 118.6⟩

/-! ### Theorems -/

attribute [local semireducible] Rat.add Rat.mul Rat.inv Rat.sub Rat.ofScientific

/-- Claim C8: an input line beginning with a hash is skipped silently —
the loop state (writes, polygons, 1-based line counter, diagnostics) is
returned unchanged, so no diagnostic is emitted, no shape is produced, the
counter does not advance, and the 7-field check is never reached. -/
theorem comment_line_skipped_silently (build : String) (st : DrawState)
    (entry : String) (h : startsWithHash entry = true) :
    processLine build st entry = .ok st := by
  simp [processLine, h]

/-- Witness for C8 at the concrete comment line "#chr start stop" (a
3-field line, so the skip is visibly not subject to the 7-field check). -/
theorem comment_line_skipped_silently_witness :
    startsWithHash "#chr start stop" = true ∧
      processLine "hg37" initState "#chr start stop" = .ok initState :=
  ⟨rfl, comment_line_skipped_silently "hg37" initState "#chr start stop" rfl⟩

/-- Claim C9: the drawing pass is a pure function of the genome build, the
header/footer template and the input lines, so two independent runs on the
same input produce identical finalized documents. -/
theorem independent_runs_identical (build hdr ftr : String)
    (lines1 lines2 : List String) (h : lines1 = lines2) :
    drawDoc build hdr ftr lines1 = drawDoc build hdr ftr lines2 := by
  rw [h]

/-- Witness for C9 on a concrete valid input. -/
theorem independent_runs_identical_witness :
    (["1\t1000000\t2000000\t0\t1\t#FF0000\t1"] =
      ["1\t1000000\t2000000\t0\t1\t#FF0000\t1"]) ∧
    drawDoc "hg37" "H" "F" ["1\t1000000\t2000000\t0\t1\t#FF0000\t1"] =
      drawDoc "hg37" "H" "F" ["1\t1000000\t2000000\t0\t1\t#FF0000\t1"] :=
  ⟨rfl, independent_runs_identical "hg37" "H" "F" _ _ rfl⟩

/-- Claim C3: a rectangle's width is chrom_width * size / 2; its x-origin
is x_center - width for copy 1 and x_center for copy 2; hence the copy-1
rectangle's right edge and the copy-2 rectangle's left edge both sit on
the chromosome's center x-coordinate. -/
theorem rect_width_and_edges (g : Geom) (L : ℚ) (start stop : ℤ)
    (size : ℚ) (col : String) :
    (buildRect g L start stop size 1 col).rectW = g.width * size / 2 ∧
    (buildRect g L start stop size 2 col).rectW = g.width * size / 2 ∧
    (buildRect g L start stop size 1 col).rectX = g.cx - g.width * size / 2 ∧
    (buildRect g L start stop size 2 col).rectX = g.cx ∧
    (buildRect g L start stop size 1 col).rectX +
      (buildRect g L start stop size 1 col).rectW = g.cx := by
  refine ⟨?_, ?_, ?_, ?_, ?_⟩ <;>
    simp [buildRect, ShapeDescription.rectW, ShapeDescription.rectX]

/-- Claim C2: on a chromosome known to both tables, every feature branch
maps start and stop independently through the linear transform
y = origin_y + position * extent_height / total_length — the rectangle
spans from yMap(start) to yMap(stop), circle / triangle / line sit at the
midpoint of the two mapped values — and the horizontal anchor of every
branch is the chromosome's center x-coordinate. -/
theorem coordinate_transform_linear (b c : String) (g : Geom) (L : ℤ)
    (start stop : ℤ) (size : ℚ) (chrcopy : ℤ) (col : String)
    (_hg : COORDINATES c = some g) (_hL : CHROM_SIZES b c = some L) :
    (buildRect g L start stop size chrcopy col).rectY = yMap g L start ∧
    (buildRect g L start stop size chrcopy col).rectY +
      (buildRect g L start stop size chrcopy col).rectH = yMap g L stop ∧
    (buildCircle g L start stop size chrcopy col).circY =
      (yMap g L start + yMap g L stop) / 2 ∧
    (buildTriangle g L start stop size chrcopy col).triY =
      (yMap g L start + yMap g L stop) / 2 ∧
    (buildLine g L start stop chrcopy col).lineY1 =
      (yMap g L start + yMap g L stop) / 2 ∧
    (buildLine g L start stop chrcopy col).lineY2 =
      (yMap g L start + yMap g L stop) / 2 ∧
    (buildRect g L start stop size 2 col).rectX = g.cx ∧
    (buildRect g L start stop size 1 col).rectX +
      (buildRect g L start stop size 1 col).rectW = g.cx ∧
    (buildLine g L start stop 1 col).lineX2 = g.cx ∧
    (buildLine g L start stop 2 col).lineX1 = g.cx := by
  refine ⟨?_, ?_, ?_, ?_, ?_, ?_, ?_, ?_, ?_, ?_⟩ <;>
    simp [buildRect, buildCircle, buildTriangle, buildLine, yMap,
      ShapeDescription.rectY, ShapeDescription.rectH, ShapeDescription.circY,
      ShapeDescription.triY, ShapeDescription.lineY1, ShapeDescription.lineY2,
      ShapeDescription.rectX, ShapeDescription.rectW,
      ShapeDescription.lineX1, ShapeDescription.lineX2] <;>
    ring

/-- Witness for C2 on chromosome "1" of build hg37 with the interval
[100, 200], size 1/2, copy 1. -/
theorem coordinate_transform_linear_witness :
    (COORDINATES "1" = some chr1 ∧ CHROM_SIZES "hg37" "1" = some 249250621) ∧
    ((buildRect chr1 ((249250621 : ℤ) : ℚ) 100 200 (1/2) 1 "#FF0000").rectY =
       yMap chr1 ((249250621 : ℤ) : ℚ) 100 ∧
     (buildRect chr1 ((249250621 : ℤ) : ℚ) 100 200 (1/2) 1 "#FF0000").rectY +
       (buildRect chr1 ((249250621 : ℤ) : ℚ) 100 200 (1/2) 1 "#FF0000").rectH =
       yMap chr1 ((249250621 : ℤ) : ℚ) 200 ∧
     (buildCircle chr1 ((249250621 : ℤ) : ℚ) 100 200 (1/2) 1 "#FF0000").circY =
       (yMap chr1 ((249250621 : ℤ) : ℚ) 100 + yMap chr1 ((249250621 : ℤ) : ℚ) 200) / 2 ∧
     (buildTriangle chr1 ((249250621 : ℤ) : ℚ) 100 200 (1/2) 1 "#FF0000").triY =
       (yMap chr1 ((249250621 : ℤ) : ℚ) 100 + yMap chr1 ((249250621 : ℤ) : ℚ) 200) / 2 ∧
     (buildLine chr1 ((249250621 : ℤ) : ℚ) 100 200 1 "#FF0000").lineY1 =
       (yMap chr1 ((249250621 : ℤ) : ℚ) 100 + yMap chr1 ((249250621 : ℤ) : ℚ) 200) / 2 ∧
     (buildLine chr1 ((249250621 : ℤ) : ℚ) 100 200 1 "#FF0000").lineY2 =
       (yMap chr1 ((249250621 : ℤ) : ℚ) 100 + yMap chr1 ((249250621 : ℤ) : ℚ) 200) / 2 ∧
     (buildRect chr1 ((249250621 : ℤ) : ℚ) 100 200 (1/2) 2 "#FF0000").rectX = chr1.cx ∧
     (buildRect chr1 ((249250621 : ℤ) : ℚ) 100 200 (1/2) 1 "#FF0000").rectX +
       (buildRect chr1 ((249250621 : ℤ) : ℚ) 100 200 (1/2) 1 "#FF0000").rectW = chr1.cx ∧
     (buildLine chr1 ((249250621 : ℤ) : ℚ) 100 200 1 "#FF0000").lineX2 = chr1.cx ∧
     (buildLine chr1 ((249250621 : ℤ) : ℚ) 100 200 2 "#FF0000").lineX1 = chr1.cx) :=
  ⟨⟨rfl, rfl⟩,
    coordinate_transform_linear "hg37" "1" chr1 249250621 100 200 (1/2) 1 "#FF0000" rfl rfl⟩

/-- Claim C4 (code bug): the size validator's condition on line 168 is the
Python chained comparison 0 > size > 1, which no rational satisfies, so a
record with relative size 2 — outside (0, 1] — passes through with no
diagnostic and no substitution: the emitted rectangle has width
118.6 * 2 / 2 = 118.6 (substituting 1.0 would give 59.3) and the
diagnostics list stays empty. -/
theorem size_out_of_range_not_substituted :
    processLine "hg37" initState "1\t100\t200\t0\t2\t#FF0000\t1" =
      .ok ⟨[.shape (.rect 10 (1.5 + 100 * 1654.5 / 249250621) 118.6
              (200 * 1654.5 / 249250621 - 100 * 1654.5 / 249250621) "#FF0000")],
           [], 2, []⟩ := by
  decide

/-- If "chr" does not occur as a contiguous substring of the list, the
replace-all normalizer returns it unchanged. -/
theorem removeChr_of_no_occurrence (l : List Char)
    (h : ¬ (['c', 'h', 'r'] <:+: l)) : removeChr l = l := by
  induction l using removeChr.induct with
  | case1 rest ih => exact absurd ⟨[], rest, rfl⟩ h
  | case2 c rest h1 ih =>
    have h' : ¬ (['c', 'h', 'r'] <:+: rest) := fun hi => h (List.infix_cons hi)
    rw [removeChr.eq_def]
    split
    · next rest1 heq =>
      injection heq with e1 e2
      exact (h1 rest1 e1 e2).elim
    · next =>
      rename_i c2 rest2 heq
      injection heq with e1 e2
      subst e1; subst e2
      rw [ih h']
    · next heq => exact absurd heq (by simp)
  | case3 => rfl

/-- Claim C7 counterexample: the normalizer is not leading-prefix
stripping — on the name "Xchr", whose only "chr" occurrence is not a
leading prefix, the code removes the occurrence (producing "X") while the
claimed prefix-only stripping would leave "Xchr" unchanged. -/
theorem chr_strip_counterexample :
    pyReplaceChr "Xchr" = "X" ∧ stripLeadingChr "Xchr" = "Xchr" :=
  ⟨rfl, rfl⟩

/-- Claim C7 amended: the normalizer removes every left-to-right
non-overlapping occurrence of "chr" anywhere in the chromosome field, not
only a leading prefix; it agrees with leading-prefix stripping exactly on
names in which "chr" does not occur after the leading prefix is removed
(which covers every well-formed name such as "chr1" ... "chrX"). -/
theorem chr_replace_agrees_on_prefix_only_names (s : String)
    (h : ¬ (['c', 'h', 'r'] <:+: (stripLeadingChr s).data)) :
    pyReplaceChr s = stripLeadingChr s := by
  unfold stripLeadingChr at h
  unfold pyReplaceChr stripLeadingChr
  by_cases hp : ['c', 'h', 'r'].isPrefixOf s.data
  · rw [if_pos hp] at h ⊢
    obtain ⟨t, ht⟩ := List.isPrefixOf_iff_prefix.mp hp
    rw [← ht] at h ⊢
    exact congrArg String.mk (removeChr_of_no_occurrence t h)
  · rw [if_neg hp] at h ⊢
    exact congrArg String.mk (removeChr_of_no_occurrence s.data h)

/-- Witness for the amended C7 at the well-formed name "chr1". -/
theorem chr_replace_agrees_on_prefix_only_names_witness :
    ¬ (['c', 'h', 'r'] <:+: (stripLeadingChr "chr1").data) ∧
      pyReplaceChr "chr1" = stripLeadingChr "chr1" :=
  ⟨by decide, chr_replace_agrees_on_prefix_only_names "chr1" (by decide)⟩

/-- The loop over a concatenation runs the first part and, if it did not
abort, continues from its final state. -/
theorem processLines_append (build : String) (st : DrawState)
    (l1 l2 : List String) :
    processLines build st (l1 ++ l2) =
      match processLines build st l1 with
      | .error f => .error f
      | .ok st' => processLines build st' l2 := by
  induction l1 generalizing st with
  | nil => rfl
  | cons e rest ih =>
    simp only [List.cons_append, processLines]
    cases processLine build st e with
    | error f => rfl
    | ok st' => exact ih st'

/-- A non-comment line without exactly 7 tab-separated fields makes the
iteration print the bad-column diagnostic and call `sys.exit`. -/
theorem processLine_bad_columns (build : String) (st : DrawState)
    (entry : String) (hc : startsWithHash entry = false)
    (hlen : (pySplitTab (pyRstrip entry)).length ≠ 7) :
    processLine build st entry = .error (.columns (columnsMsg st.lineNum)) := by
  simp [processLine, hc, hlen]

/-- Claim C5: on the first non-comment line that does not have exactly 7
tab-separated fields, the run aborts with the diagnostic naming the
current 1-based line number — whatever lines follow — and the result is
the fatal event, not a finalized document. -/
theorem bad_field_count_aborts (build hdr ftr : String) (pre post : List String)
    (entry : String) (st : DrawState)
    (hpre : processLines build initState pre = .ok st)
    (hc : startsWithHash entry = false)
    (hlen : (pySplitTab (pyRstrip entry)).length ≠ 7) :
    drawDoc build hdr ftr (pre ++ entry :: post) =
      .error (.columns (columnsMsg st.lineNum)) := by
  unfold drawDoc
  rw [processLines_append, hpre]
  simp only [processLines, processLine_bad_columns build st entry hc hlen]

/-- Witness for C5: a 2-field line ("a", "b") aborts the run at line 1
even though a valid line follows. -/
theorem bad_field_count_aborts_witness :
    (processLines "hg37" initState [] = .ok initState ∧
      startsWithHash "a\tb" = false ∧
      (pySplitTab (pyRstrip "a\tb")).length ≠ 7) ∧
    drawDoc "hg37" "H" "F" ([] ++ "a\tb" :: ["1\t0\t0\t0\t1\t#FF0000\t1"]) =
      .error (.columns (columnsMsg 1)) :=
  ⟨⟨rfl, rfl, by decide⟩,
    bad_field_count_aborts "hg37" "H" "F" [] ["1\t0\t0\t0\t1\t#FF0000\t1"]
      "a\tb" initState rfl rfl (by decide)⟩

/-- The literal size check of line 168 — the Python chained comparison
0 > size > 1 — holds for no rational, so the size branch never fires. -/
theorem size_cond_never_holds (q : ℚ) : ¬((0 : ℚ) > q ∧ q > 1) := by
  rintro ⟨a, b⟩
  exact absurd (lt_trans b a) (by norm_num)

/-- Claim C6: a record whose copy field parses to a value other than 1 or
2 is skipped — the copy diagnostic is appended, no shape of any kind is
emitted (writes and polygons are unchanged), the 1-based line counter
still advances — and the loop carries on with the remaining lines from
the updated state rather than halting. -/
theorem invalid_copy_skipped (build : String) (st : DrawState)
    (entry : String) (c0 s1 s2 fS szS colS cpS : String)
    (n1 n2 feature k : ℤ) (q : ℚ) (rest : List String)
    (hc : startsWithHash entry = false)
    (hf : pySplitTab (pyRstrip entry) = [c0, s1, s2, fS, szS, colS, cpS])
    (h1 : pyInt s1 = some n1) (h2 : pyInt s2 = some n2)
    (hq : pyFloat szS = some q) (hft : pyInt fS = some feature)
    (hk : pyInt cpS = some k) (hk1 : k ≠ 1) (hk2 : k ≠ 2) :
    processLine build st entry =
      .ok ⟨st.written, st.polygons, st.lineNum + 1,
        (if colOk colS then st.diags
          else st.diags ++ [colMsg colS st.lineNum]) ++ [copyMsg k st.lineNum]⟩ ∧
    processLines build st (entry :: rest) =
      processLines build
        ⟨st.written, st.polygons, st.lineNum + 1,
          (if colOk colS then st.diags
            else st.diags ++ [colMsg colS st.lineNum]) ++ [copyMsg k st.lineNum]⟩
        rest := by
  have hstep : processLine build st entry =
      .ok ⟨st.written, st.polygons, st.lineNum + 1,
        (if colOk colS then st.diags
          else st.diags ++ [colMsg colS st.lineNum]) ++ [copyMsg k st.lineNum]⟩ := by
    have h7 : (pySplitTab (pyRstrip entry)).length = 7 := by rw [hf]; rfl
    simp only [processLine, hc, Bool.false_eq_true, if_false, hf, h7, if_true,
      List.getD_cons_zero, List.getD_cons_succ, h1, h2, hq, hft, hk,
      size_cond_never_holds q, ite_false, ite_true]
    rw [if_pos (show k ≠ 1 ∧ k ≠ 2 from ⟨hk1, hk2⟩)]
    simp
  exact ⟨hstep, by simp only [processLines, hstep]⟩

/-- Witness for C6 at a concrete copy=3 record followed by one more
line. -/
theorem invalid_copy_skipped_witness :
    (startsWithHash "1\t10\t20\t0\t1\t#FF0000\t3" = false ∧
      pySplitTab (pyRstrip "1\t10\t20\t0\t1\t#FF0000\t3") =
        ["1", "10", "20", "0", "1", "#FF0000", "3"] ∧
      pyInt "3" = some 3 ∧ (3 : ℤ) ≠ 1 ∧ (3 : ℤ) ≠ 2) ∧
    (processLine "hg37" initState "1\t10\t20\t0\t1\t#FF0000\t3" =
      .ok ⟨initState.written, initState.polygons, initState.lineNum + 1,
        (if colOk "#FF0000" then initState.diags
          else initState.diags ++ [colMsg "#FF0000" initState.lineNum]) ++
          [copyMsg 3 initState.lineNum]⟩ ∧
     processLines "hg37" initState
        ("1\t10\t20\t0\t1\t#FF0000\t3" :: ["1\t0\t0\t0\t1\t#00FF00\t1"]) =
      processLines "hg37"
        ⟨initState.written, initState.polygons, initState.lineNum + 1,
          (if colOk "#FF0000" then initState.diags
            else initState.diags ++ [colMsg "#FF0000" initState.lineNum]) ++
            [copyMsg 3 initState.lineNum]⟩
        ["1\t0\t0\t0\t1\t#00FF00\t1"]) :=
  ⟨⟨rfl, by decide, by decide, by decide, by decide⟩,
    invalid_copy_skipped "hg37" initState "1\t10\t20\t0\t1\t#FF0000\t3"
      "1" "10" "20" "0" "1" "#FF0000" "3" 10 20 0 3 1
      ["1\t0\t0\t0\t1\t#00FF00\t1"] rfl (by decide) (by decide) (by decide)
      (by decide) (by decide) (by decide) (by decide) (by decide)⟩

/-- Claim C10: on a non-comment 7-field line in which start, stop, the
shape kind or the copy is not an integer literal, or the relative size is
not a float literal, the numeric conversions of lines 163-167 raise an
uncaught ValueError: the whole run aborts with that event and no document
is finalized — the record is neither substituted nor skipped. -/
theorem malformed_numeric_aborts (build hdr ftr : String)
    (pre post : List String) (entry : String) (st : DrawState)
    (c0 s1 s2 fS szS colS cpS : String)
    (hpre : processLines build initState pre = .ok st)
    (hc : startsWithHash entry = false)
    (hf : pySplitTab (pyRstrip entry) = [c0, s1, s2, fS, szS, colS, cpS])
    (hbad : pyInt s1 = none ∨ pyInt s2 = none ∨ pyFloat szS = none ∨
      pyInt fS = none ∨ pyInt cpS = none) :
    ∃ fld, drawDoc build hdr ftr (pre ++ entry :: post) =
      .error (.valueError fld) := by
  have h7 : (pySplitTab (pyRstrip entry)).length = 7 := by rw [hf]; rfl
  have key : ∃ fld, processLine build st entry = .error (.valueError fld) := by
    cases hA : pyInt s1 with
    | none =>
      exact ⟨s1, by simp [processLine, hc,
        hf, h7, if_true, List.getD_cons_zero, List.getD_cons_succ, hA]⟩
    | some a =>
      cases hB : pyInt s2 with
      | none =>
        exact ⟨s2, by simp [processLine, hc,
          hf, h7, if_true, List.getD_cons_zero, List.getD_cons_succ, hA, hB]⟩
      | some b =>
        cases hC : pyFloat szS with
        | none =>
          exact ⟨szS, by simp [processLine, hc, hf, h7, if_true, List.getD_cons_zero,
            List.getD_cons_succ, hA, hB, hC]⟩
        | some qv =>
          cases hD : pyInt fS with
          | none =>
            exact ⟨fS, by simp [processLine, hc, hf, h7, if_true, List.getD_cons_zero,
              List.getD_cons_succ, hA, hB, hC, hD]⟩
          | some fv =>
            cases hE : pyInt cpS with
            | none =>
              exact ⟨cpS, by simp [processLine, hc, hf, h7, if_true,
                List.getD_cons_zero, List.getD_cons_succ, hA, hB, hC, hD, hE]⟩
            | some kv =>
              rcases hbad with h | h | h | h | h <;> simp_all
  obtain ⟨fld, hfld⟩ := key
  refine ⟨fld, ?_⟩
  unfold drawDoc
  rw [processLines_append, hpre]
  simp only [processLines, hfld]

/-- Witness for C10: the start field "abc" of an otherwise well-formed
line is not an integer literal and the run aborts. -/
theorem malformed_numeric_aborts_witness :
    (processLines "hg37" initState [] = .ok initState ∧
      startsWithHash "1\tabc\t200\t0\t1\t#FF0000\t1" = false ∧
      pyInt "abc" = none) ∧
    ∃ fld, drawDoc "hg37" "H" "F"
        ([] ++ "1\tabc\t200\t0\t1\t#FF0000\t1" :: []) =
      .error (.valueError fld) :=
  ⟨⟨rfl, rfl, by decide⟩,
    malformed_numeric_aborts "hg37" "H" "F" [] [] "1\tabc\t200\t0\t1\t#FF0000\t1"
      initState "1" "abc" "200" "0" "1" "#FF0000" "1" rfl rfl (by decide)
      (Or.inl (by decide))⟩

/-- The rectangle branch emits a non-triangle shape. -/
theorem isTri_buildRect (g : Geom) (L : ℚ) (start stop : ℤ) (size : ℚ)
    (chrcopy : ℤ) (col : String) :
    (buildRect g L start stop size chrcopy col).isTri = false := rfl

/-- The circle branch emits a non-triangle shape. -/
theorem isTri_buildCircle (g : Geom) (L : ℚ) (start stop : ℤ) (size : ℚ)
    (chrcopy : ℤ) (col : String) :
    (buildCircle g L start stop size chrcopy col).isTri = false := rfl

/-- The line branch emits a non-triangle shape. -/
theorem isTri_buildLine (g : Geom) (L : ℚ) (start stop : ℤ)
    (chrcopy : ℤ) (col : String) :
    (buildLine g L start stop chrcopy col).isTri = false := rfl

/-- The triangle branch emits a triangle shape. -/
theorem isTri_buildTriangle (g : Geom) (L : ℚ) (start stop : ℤ) (size : ℚ)
    (chrcopy : ℤ) (col : String) :
    (buildTriangle g L start stop size chrcopy col).isTri = true := rfl

/-- One iteration only appends: base (non-triangle) fragments to the
direct writes, triangles to the deferred polygons accumulator. -/
theorem processLine_shapes (build : String) (st : DrawState) (e : String)
    (st' : DrawState) (h : processLine build st e = .ok st') :
    ∃ nw np, st'.written = st.written ++ nw ∧
      st'.polygons = st.polygons ++ np ∧
      (∀ x ∈ nw, x.isBaseItem = true) ∧ (∀ p ∈ np, p.isTri = true) := by
  unfold processLine at h
  repeat' first
    | split at h
    | dsimp only at h
  all_goals try exact Except.noConfusion h
  all_goals injection h with h2
  all_goals subst h2
  all_goals
    first
      | exact ⟨[], [], (List.append_nil _).symm, (List.append_nil _).symm,
          by simp, by simp⟩
      | (refine ⟨_, [], rfl, (List.append_nil _).symm, ?_, by simp⟩
         simp [DocItem.isBaseItem, isTri_buildRect, isTri_buildCircle,
           isTri_buildLine])
      | (refine ⟨[], _, (List.append_nil _).symm, rfl, by simp, ?_⟩
         simp [isTri_buildTriangle])

/-- Over a whole run, the direct-write invariant (only base fragments)
and the polygons invariant (only triangles) are preserved. -/
theorem processLines_shapes (build : String) (l : List String)
    (st st' : DrawState) (h : processLines build st l = .ok st')
    (hw : ∀ x ∈ st.written, x.isBaseItem = true)
    (hp : ∀ p ∈ st.polygons, p.isTri = true) :
    (∀ x ∈ st'.written, x.isBaseItem = true) ∧
      (∀ p ∈ st'.polygons, p.isTri = true) := by
  induction l generalizing st with
  | nil =>
    unfold processLines at h
    injection h with h2
    subst h2
    exact ⟨hw, hp⟩
  | cons e rest ih =>
    unfold processLines at h
    cases hstep : processLine build st e with
    | error f => rw [hstep] at h; exact Except.noConfusion h
    | ok stm =>
      rw [hstep] at h
      obtain ⟨nw, np, e1, e2, m1, m2⟩ := processLine_shapes build st e stm hstep
      refine ih stm h ?_ ?_
      · intro x hx
        rw [e1] at hx
        rcases List.mem_append.mp hx with hx | hx
        · exact hw x hx
        · exact m1 x hx
      · intro p hp2
        rw [e2] at hp2
        rcases List.mem_append.mp hp2 with hp2 | hp2
        · exact hp p hp2
        · exact m2 p hp2

/-- Claim C1: every successfully finalized document decomposes as the
header, then a run of base shapes only (rectangles, circles, lines, in
the order they were written), then the footer template, then a run of
triangle shapes only, then the closing tag — so every triangle fragment
appears after every base fragment, whatever the input order was. -/
theorem triangles_after_base (build hdr ftr : String) (lines : List String)
    (doc : List DocItem) (h : drawDoc build hdr ftr lines = .ok doc) :
    ∃ base overlay,
      doc = DocItem.header hdr ::
        (base ++ (DocItem.footer ftr :: (overlay ++ [DocItem.closing]))) ∧
      (∀ x ∈ base, x.isBaseItem = true) ∧
      (∀ x ∈ overlay, x.isTriItem = true) := by
  unfold drawDoc at h
  cases hrun : processLines build initState lines with
  | error f => rw [hrun] at h; exact Except.noConfusion h
  | ok st =>
    rw [hrun] at h
    injection h with h2
    subst h2
    obtain ⟨hw, hp⟩ := processLines_shapes build lines initState st hrun
      (by intro x hx; exact absurd hx (List.not_mem_nil x))
      (by intro p hp2; exact absurd hp2 (List.not_mem_nil p))
    refine ⟨st.written, st.polygons.map DocItem.shape, rfl, hw, ?_⟩
    intro x hx
    obtain ⟨p, hpmem, rfl⟩ := List.mem_map.mp hx
    simpa [DocItem.isTriItem] using hp p hpmem

/-- Witness for C1: a run in which the triangle record comes first in the
input still places the triangle fragment after the rectangle fragment,
after the footer. -/
theorem triangles_after_base_witness :
    ∃ base overlay,
      ([DocItem.header "H",
        DocItem.shape (ShapeDescription.rect 69.3 1.5 59.3 0 "#00FF00"),
        DocItem.footer "F",
        DocItem.shape
          (ShapeDescription.triangle 31.1 (-20) 69.3 1.5 31.1 23 "#FF0000"),
        DocItem.closing] : List DocItem) =
        DocItem.header "H" ::
          (base ++ (DocItem.footer "F" :: (overlay ++ [DocItem.closing]))) ∧
      (∀ x ∈ base, x.isBaseItem = true) ∧
      (∀ x ∈ overlay, x.isTriItem = true) :=
  triangles_after_base "hg37" "H" "F"
    ["1\t0\t0\t2\t1\t#FF0000\t1", "1\t0\t0\t0\t1\t#00FF00\t1"] _ (by decide)

end Tagore
